import Mathlib

/-!
Shallow embedding of the market-bot checkout core (djproject):
  - core/models.py            : relational rows (Product, CartItem, Order, OrderItem)
  - bot/db/cart.py            : add_item_to_cart, get_cart_items
  - bot/db/orders.py          : create_order, update_order_payment_info
  - bot/services/payments.py  : TinkoffPayment.create_payment (payload + net handling)
  - bot/handlers/catalog/checkout.py : process_phone, process_address
  - bot/utils/subscription.py : check_user_subscribed

The database is modelled as explicit row lists; Django's auto primary keys
are modelled with explicit counters; `transaction.atomic()` is modelled by
discarding the partially updated state on error.  Money (DecimalField) is
modelled as ℚ.  Fallible calls return `Except String`.
-/

namespace MarketBot

/-- core.models.Product (fields the checkout flow reads). -/
structure Product where
  id : Nat
  name : String
  price : ℚ
deriving Repr, DecidableEq

/-- core.models.CartItem row: user_id BigInteger, FK product, quantity. -/
structure CartItemRow where
  id : Nat
  user_id : Int
  product_id : Nat
  quantity : Nat
deriving Repr, DecidableEq

/-- core.models.Order row (payment fields nullable, payment_status default "pending"). -/
structure OrderRow where
  id : Nat
  user_id : Int
  name : String
  phone : String
  address : String
  total_amount : ℚ
  payment_id : Option String
  payment_url : Option String
  payment_status : String
deriving Repr, DecidableEq

/-- core.models.OrderItem row: FK order, FK product, quantity, price snapshot. -/
structure OrderItemRow where
  order_id : Nat
  product_id : Nat
  quantity : Nat
  price : ℚ
deriving Repr, DecidableEq

/-- The relational store.  `nextOrderId` / `nextCartItemId` model auto-assigned
primary keys. -/
structure DB where
  products : List Product
  cartItems : List CartItemRow
  orders : List OrderRow
  orderItems : List OrderItemRow
  nextOrderId : Nat
  nextCartItemId : Nat
deriving Repr, DecidableEq

/-! ## bot/db/cart.py -/

/-- The dict produced per cart line by `get_cart_items` (id, product_id, name,
price, quantity; the image key is irrelevant to checkout). -/
structure CartView where
  id : Nat
  product_id : Nat
  name : String
  price : ℚ
  quantity : Nat
deriving Repr, DecidableEq

/-- `CartItem.objects.filter(user_id=...).select_related('product')` + dict
construction.  The FK guarantees the joined product exists; a dangling
reference is dropped by the join. -/
def get_cart_items (db : DB) (user_id : Int) : List CartView :=
  (db.cartItems.filter (fun c => c.user_id == user_id)).filterMap (fun c =>
    match db.products.find? (fun p => p.id == c.product_id) with
    | some p => some { id := c.id, product_id := p.id, name := p.name,
                       price := p.price, quantity := c.quantity }
    | none => none)

/-- `add_item_to_cart`: filter by (user_id, product_id); if a row exists its
quantity is incremented and saved, else a new row is created.  Returns True. -/
def add_item_to_cart (db : DB) (user_id : Int) (product_id : Nat) (quantity : Nat) :
    Bool × DB :=
  match db.cartItems.find? (fun c => c.user_id == user_id && c.product_id == product_id) with
  | some cart_item =>
      (true, { db with cartItems := db.cartItems.map (fun c =>
          if c.id == cart_item.id then { c with quantity := c.quantity + quantity } else c) })
  | none =>
      (true, { db with
          cartItems := db.cartItems ++
            [{ id := db.nextCartItemId, user_id := user_id,
               product_id := product_id, quantity := quantity }],
          nextCartItemId := db.nextCartItemId + 1 })

/-! ## bot/db/orders.py -/

/-- The keys of each dict in `items` that `create_order` reads:
item['product_id'], item['quantity'], item['price']. -/
structure ItemDict where
  product_id : Nat
  quantity : Nat
  price : ℚ
deriving Repr, DecidableEq

/-- `Product.objects.get(id=pid)`: the row, or a raised DoesNotExist. -/
def productGet (db : DB) (pid : Nat) : Except String Product :=
  match db.products.find? (fun p => p.id == pid) with
  | some p => .ok p
  | none => .error "Product.DoesNotExist"

/-- The item loop inside `create_order`'s transaction: for each dict, fetch the
product (may raise) and create an OrderItem row.  Threads the partially
updated state so that the rollback in `create_order` is observable. -/
def createOrderItems (db : DB) (oid : Nat) : List ItemDict → Except String Unit × DB
  | [] => (.ok (), db)
  | item :: rest =>
    match productGet db item.product_id with
    | .error e => (.error e, db)
    | .ok product =>
        createOrderItems
          { db with orderItems := db.orderItems ++
              [{ order_id := oid, product_id := product.id,
                 quantity := item.quantity, price := item.price }] }
          oid rest

/-- `create_order`: inside `transaction.atomic()`, create the Order row, then
the OrderItem rows (each `Product.objects.get` may raise); on any error the
transaction rolls back to the incoming state and the error propagates;
otherwise the new order id is returned. -/
def create_order (db : DB) (user_id : Int) (items : List ItemDict)
    (name phone address : String) (total_amount : ℚ) : Except String Nat × DB :=
  let oid := db.nextOrderId
  let db1 : DB :=
    { db with
      orders := db.orders ++
        [{ id := oid, user_id := user_id, name := name, phone := phone,
           address := address, total_amount := total_amount,
           payment_id := none, payment_url := none, payment_status := "pending" }],
      nextOrderId := oid + 1 }
  match createOrderItems db1 oid items with
  | (.ok _, db2) => (.ok oid, db2)
  | (.error e, _) => (.error e, db)

/-- `update_order_payment_info`: `Order.objects.get` then set payment_id,
payment_url, payment_status and save; DoesNotExist (and any other error) is
caught, logged, and returns False — nothing propagates to the caller. -/
def update_order_payment_info (db : DB) (order_id : Nat)
    (payment_id : String) (payment_url : Option String) (payment_status : String) :
    Bool × DB :=
  match db.orders.find? (fun o => o.id == order_id) with
  | none => (false, db)
  | some _ =>
      (true, { db with orders := db.orders.map (fun o =>
          if o.id == order_id then
            { o with payment_id := some payment_id, payment_url := payment_url,
                     payment_status := payment_status }
          else o) })

/-! ## String helpers with Python semantics -/

/-- Python `str.strip()`: whitespace removed from both ends. -/
def pyStrip (s : String) : String :=
  ⟨((s.data.dropWhile Char.isWhitespace).reverse.dropWhile Char.isWhitespace).reverse⟩

/-- Python `re.sub(r'\D', '', s)`: every non-digit character removed. -/
def stripNonDigits (s : String) : String := ⟨s.data.filter Char.isDigit⟩

/-- Python `s.startswith(c)` for a single-character pattern. -/
def startsWithChar (c : Char) (s : String) : Bool := s.data.head? == some c

/-- Python `s[1:]`. -/
def strTail (s : String) : String := ⟨s.data.tail⟩

/-- Python `needle in haystack` (substring containment). -/
def hasSubstr (needle hay : String) : Bool :=
  (List.range (hay.data.length + 1)).any (fun i =>
    (hay.data.drop i).take needle.data.length == needle.data)

/-- `re.match(r'^(7|8)?\d{10}$', s)`: an optional leading '7' or '8' followed
by exactly ten digits, nothing else. -/
def matchesPhonePattern (s : String) : Bool :=
  match s.data with
  | [] => false
  | c :: rest =>
      ((c == '7' || c == '8') && rest.length == 10 && rest.all Char.isDigit)
      || ((c :: rest).length == 10 && (c :: rest).all Char.isDigit)

/-! ## aiogram FSM state (utils/states.py + FSMContext) -/

/-- CatalogStates stages used by the checkout conversation. -/
inductive Stage
  | waiting_for_quantity
  | waiting_for_name
  | waiting_for_phone
  | waiting_for_address
deriving Repr, DecidableEq

/-- One user's FSMContext: the current state and the scratch data mapping. -/
structure FSMContext where
  stage : Option Stage
  data : List (String × String)
deriving Repr, DecidableEq

/-- Python dict update `data[k] = v` (what `state.update_data` does). -/
def setKey (data : List (String × String)) (k v : String) : List (String × String) :=
  if data.any (fun p => p.1 == k) then
    data.map (fun p => if p.1 == k then (k, v) else p)
  else data ++ [(k, v)]

/-- Python dict lookup `data[k]`; a missing key is a raised KeyError,
modelled by `none`. -/
def lookupKey (data : List (String × String)) (k : String) : Option String :=
  (data.find? (fun p => p.1 == k)).map (fun p => p.2)

/-- `await state.clear()`: no state, empty scratch. -/
def FSMContext.clear : FSMContext := { stage := none, data := [] }

/-! ## checkout.process_phone -/

/-- Normalization of an accepted cleaned number: leading '8' is replaced by
'+7'; leading '7' is prefixed with '+'; otherwise '+7' is prepended. -/
def normalizePhone (cleaned : String) : String :=
  if startsWithChar '8' cleaned then "+7" ++ strTail cleaned
  else if startsWithChar '7' cleaned then "+" ++ cleaned
  else "+7" ++ cleaned

/-- checkout.process_phone: strip the message text, drop all non-digits, test
the pattern; on failure re-prompt with the format hint and leave the stage
unchanged; on success store the normalized phone in the scratch and advance
to waiting_for_address.  The Bool reports whether the stage advanced. -/
def process_phone (fsm : FSMContext) (text : String) : FSMContext × Bool :=
  if matchesPhonePattern (stripNonDigits (pyStrip text)) then
    ({ stage := some .waiting_for_address,
       data := setKey fsm.data "phone" (normalizePhone (stripNonDigits (pyStrip text))) }, true)
  else
    (fsm, false)

/-! ## services/payments.py -/

/-- Python `int()` on an exact rational value: truncation toward zero. -/
def pyInt (q : ℚ) : ℤ := if 0 ≤ q then ⌊q⌋ else ⌈q⌉

/-- The payload fields `create_payment` always builds for the Init call
(the optional DATA / SuccessURL entries carry no arithmetic). -/
structure InitPayload where
  terminalKey : String
  amount : ℤ
  orderId : String
  description : String
deriving Repr, DecidableEq

/-- Payload construction in `create_payment`: "Amount": int(amount * 100). -/
def tinkoff_init_payload (terminal_key order_id : String) (amount : ℚ)
    (description : String) : InitPayload :=
  { terminalKey := terminal_key, amount := pyInt (amount * 100),
    orderId := order_id, description := description }

/-- The fields of the gateway's JSON response that the orchestrator reads. -/
structure GatewayResp where
  success : Bool
  paymentURL : Option String
  message : Option String
deriving Repr, DecidableEq

/-- TinkoffPayment.create_payment: build the payload and POST it.  `net` is
the outcome of the HTTP call on that payload — a parsed response, or a
raised network/protocol exception; an exception is caught, logged, and
returned as {"Success": False, "Message": str(e)} instead of propagating. -/
def TinkoffPayment.create_payment (terminal_key order_id : String) (amount : ℚ)
    (description : String) (net : InitPayload → Except String GatewayResp) : GatewayResp :=
  let payload := tinkoff_init_payload terminal_key order_id amount description
  match net payload with
  | .ok resp => resp
  | .error e => { success := false, paymentURL := none, message := some e }

/-! ## checkout.process_address (the Finalizing step) -/

/-- Terminal outcome of the finalization handler, identified by which
user-facing message branch ran. -/
inductive Outcome
  | emptyCart
  | succeeded (orderId : Nat) (paymentURL : Option String)
  | degraded (orderId : Nat)
  | aborted
deriving Repr, DecidableEq

/-- External-effect oracle for one run of process_address: whether the
storage layer itself fails inside create_order, whether the sheets export
raises (it is swallowed either way), the HTTP outcome inside
create_payment, and the uuid nonce. -/
structure Env where
  dbError : Bool
  sheetsError : Bool
  net : InitPayload → Except String GatewayResp
  nonce : String

/-- What one run of process_address leaves behind. -/
structure StepResult where
  outcome : Outcome
  db : DB
  fsm : FSMContext

/-- Config constant (value irrelevant to the control flow). -/
def TINKOFF_TERMINAL_KEY : String := "TERMINAL_KEY"

/-- total_sum: the fold over the cart snapshot accumulating price * quantity. -/
def orderTotal (cart : List CartView) : ℚ :=
  cart.foldl (fun acc it => acc + it.price * (it.quantity : ℚ)) 0

/-- `f"order_{order_id}_{uuid.uuid4().hex[:8]}"` with the nonce made explicit. -/
def paymentIdOf (order_id : Nat) (nonce : String) : String :=
  "order_" ++ toString order_id ++ "_" ++ nonce

/-- The payment description string built in process_address. -/
def descriptionOf (order_id : Nat) : String :=
  "Заказ #" ++ toString order_id ++ " в нашем магазине"

/-- checkout.process_address: store the address, re-fetch the cart snapshot,
abort on an empty cart; build order_details (reads name/phone/address from
the scratch — a missing key raises KeyError into the outer except); create
the order (a storage error or missing product raises into the outer
except); export to sheets best-effort; initiate payment (never raises on
network failure); on Success persist payment info (result ignored) and show
the link, else the degraded manual-follow-up message.  Every path ends with
`state.clear()`. -/
def process_address (env : Env) (db : DB) (user_id : Int) (text : String)
    (fsm : FSMContext) : StepResult :=
  let user_data := setKey fsm.data "address" text
  let cart_items := get_cart_items db user_id
  if cart_items.isEmpty then
    { outcome := .emptyCart, db := db, fsm := FSMContext.clear }
  else
    match lookupKey user_data "name", lookupKey user_data "phone",
          lookupKey user_data "address" with
    | some name, some phone, some address =>
      let total_sum := orderTotal cart_items
      if env.dbError then
        { outcome := .aborted, db := db, fsm := FSMContext.clear }
      else
        match create_order db user_id
            (cart_items.map (fun it =>
              { product_id := it.product_id, quantity := it.quantity, price := it.price }))
            name phone address total_sum with
        | (.error _, dbRolledBack) =>
            { outcome := .aborted, db := dbRolledBack, fsm := FSMContext.clear }
        | (.ok order_id, db1) =>
            let payment_id := paymentIdOf order_id env.nonce
            let payment_result := TinkoffPayment.create_payment TINKOFF_TERMINAL_KEY
              payment_id total_sum (descriptionOf order_id) env.net
            if payment_result.success then
              let upd := update_order_payment_info db1 order_id payment_id
                payment_result.paymentURL "pending"
              { outcome := .succeeded order_id payment_result.paymentURL,
                db := upd.2, fsm := FSMContext.clear }
            else
              { outcome := .degraded order_id, db := db1, fsm := FSMContext.clear }
    | _, _, _ => { outcome := .aborted, db := db, fsm := FSMContext.clear }

/-! ## utils/subscription.py -/

/-- aiogram chat identifier: a numeric id or a username string. -/
inductive ChatId
  | int (id : Int)
  | str (s : String)
deriving Repr, DecidableEq

/-- Telegram API oracle: get_chat resolves a username to a numeric id (or
raises); get_chat_member returns the member's status string (or raises). -/
structure TgApi where
  getChat : String → Except String Int
  getChatMember : ChatId → Int → Except String String

/-- The get_chat_member call and status test shared by every branch of
check_user_subscribed; a raised error lands in the outer except, where an
"member list is inaccessible" message is treated as subscribed and anything
else is logged and treated as not subscribed. -/
def memberStatusCheck (api : TgApi) (user_id : Int) (chat_id : ChatId) : Bool :=
  match api.getChatMember chat_id user_id with
  | .ok status => ["creator", "administrator", "member"].contains status
  | .error e => if hasSubstr "member list is inaccessible" e then true else false

/-- check_user_subscribed: a chat id that is a string starting with '@' is
first resolved via get_chat (failure there is caught by the inner except
and yields False); then get_chat_member decides, with the fail-open special
case of the outer except. -/
def check_user_subscribed (api : TgApi) (user_id : Int) (chat_id : ChatId) : Bool :=
  match chat_id with
  | .str s =>
      if startsWithChar '@' s then
        match api.getChat s with
        | .error _ => false
        | .ok cid => memberStatusCheck api user_id (.int cid)
      else memberStatusCheck api user_id chat_id
  | .int _ => memberStatusCheck api user_id chat_id

/-! ## Observation helpers used in theorem statements -/

/-- The cart row `add_item_to_cart` creates when the (owner, product) pair is
absent. -/
def newCartRow (db : DB) (uid : Int) (pid qty : Nat) : CartItemRow :=
  { id := db.nextCartItemId, user_id := uid, product_id := pid, quantity := qty }

/-- The OrderItem row `create_order` writes for one item dict. -/
def orderItemOf (oid : Nat) (it : ItemDict) : OrderItemRow :=
  { order_id := oid, product_id := it.product_id, quantity := it.quantity, price := it.price }

/-- The OrderItem row finalization writes for one cart line. -/
def snapshotItemRow (oid : Nat) (it : CartView) : OrderItemRow :=
  { order_id := oid, product_id := it.product_id, quantity := it.quantity, price := it.price }

/-- The Order row `create_order` writes before the item loop. -/
def newOrderRow (oid : Nat) (uid : Int) (name phone address : String) (t : ℚ) : OrderRow :=
  { id := oid, user_id := uid, name := name, phone := phone, address := address,
    total_amount := t, payment_id := none, payment_url := none, payment_status := "pending" }

/-- The database state after a successful `create_order` on a cart snapshot. -/
def dbAfterOrder (db : DB) (uid : Int) (name phone address : String)
    (cart : List CartView) : DB :=
  { db with
    orders := db.orders ++ [newOrderRow db.nextOrderId uid name phone address (orderTotal cart)],
    orderItems := db.orderItems ++ cart.map (snapshotItemRow db.nextOrderId),
    nextOrderId := db.nextOrderId + 1 }

/-- What `process_address` produces once it reaches order creation with scratch
name `n` and phone `p`: the committed order plus the payment branch. -/
def finalizeResult (env : Env) (db : DB) (uid : Int) (n p text : String) : StepResult :=
  let oid := db.nextOrderId
  let cart := get_cart_items db uid
  let db1 := dbAfterOrder db uid n p text cart
  let pid := paymentIdOf oid env.nonce
  let resp := TinkoffPayment.create_payment TINKOFF_TERMINAL_KEY pid (orderTotal cart)
    (descriptionOf oid) env.net
  if resp.success then
    { outcome := .succeeded oid resp.paymentURL,
      db := (update_order_payment_info db1 oid pid resp.paymentURL "pending").2,
      fsm := FSMContext.clear }
  else
    { outcome := .degraded oid, db := db1, fsm := FSMContext.clear }

/-- The persisted line items of one order. -/
def orderLineItems (db : DB) (oid : Nat) : List OrderItemRow :=
  db.orderItems.filter (fun it => it.order_id == oid)

/-- Sum of unit_price × quantity over a list of persisted line items. -/
def itemsTotal (items : List OrderItemRow) : ℚ :=
  (items.map (fun it => it.price * (it.quantity : ℚ))).sum

/-- The chat id `check_user_subscribed` actually queries get_chat_member with:
a '@username' string goes through get_chat first, everything else is passed
through unchanged. -/
def effectiveChat (api : TgApi) (chat_id : ChatId) : Except String ChatId :=
  match chat_id with
  | .str s =>
      if startsWithChar '@' s then
        match api.getChat s with
        | .error e => .error e
        | .ok cid => .ok (.int cid)
      else .ok chat_id
  | .int _ => .ok chat_id

/-! ## Concrete fixtures for witnesses and counterexamples -/

/-- One product, one cart line (2 × product 1) for user 1. -/
def dbW : DB :=
  { products := [{ id := 1, name := "A", price := (100 : ℚ) }],
    cartItems := [{ id := 1, user_id := 1, product_id := 1, quantity := 2 }],
    orders := [], orderItems := [], nextOrderId := 1, nextCartItemId := 2 }

/-- Scratch data after the name and phone stages. -/
def fsmW : FSMContext :=
  ⟨some .waiting_for_address, [("name", "Ivan"), ("phone", "+79991234567")]⟩

/-- Scratch data at the phone stage. -/
def fsmPhoneW : FSMContext := ⟨some .waiting_for_phone, [("name", "Ivan")]⟩

/-- The HTTP POST to the gateway raises (network failure). -/
def envNetFail : Env := ⟨false, false, fun _ => .error "Cannot connect to host", "abcd1234"⟩

/-- The gateway answers with a structured business failure. -/
def envBizFail : Env :=
  ⟨false, false, fun _ => .ok ⟨false, none, some "Cannot connect to host"⟩, "abcd1234"⟩

/-- The gateway answers successfully with a payment link. -/
def envOkPay : Env := ⟨false, false, fun _ => .ok ⟨true, some "https://pay.example", none⟩, "abcd1234"⟩

/-- get_chat_member raises the inaccessible-member-list error. -/
def apiInaccessible : TgApi :=
  ⟨fun _ => .ok 5, fun _ _ => .error "Bad Request: member list is inaccessible"⟩

/-- A database that already holds one committed order (id 1). -/
def dbOrderW : DB :=
  { products := [], cartItems := [],
    orders := [newOrderRow 1 1 "Ivan" "+79991234567" "Moscow" 200],
    orderItems := [snapshotItemRow 1 ⟨1, 1, "A", 100, 2⟩],
    nextOrderId := 2, nextCartItemId := 1 }

/-! # Shared lemmas -/

theorem find?_append_none {α : Type} {q : α → Bool} {l₁ l₂ : List α}
    (h : ∀ x ∈ l₁, q x = false) :
    List.find? q (l₁ ++ l₂) = List.find? q l₂ := by
  rw [List.find?_append]
  have h0 : List.find? q l₁ = none := by
    rw [List.find?_eq_none]
    intro x hx
    simp [h x hx]
  rw [h0, Option.none_or]

theorem find?_setKey_same (d : List (String × String)) (k v : String) :
    List.find? (fun q => q.1 == k) (setKey d k v) = some (k, v) := by
  unfold setKey
  split
  case isTrue h =>
    induction d with
    | nil => simp at h
    | cons hd tl ih =>
      by_cases hk : (hd.1 == k) = true
      · simp only [List.map_cons, if_pos hk]
        exact @List.find?_cons_of_pos _ (fun q => q.1 == k) (k, v) _ (by simp)
      · rw [List.map_cons, if_neg hk, @List.find?_cons_of_neg _ (fun q => q.1 == k) hd _ hk]
        exact ih (by simpa [hk] using h)
  case isFalse h =>
    have hfalse : (d.any fun p => p.1 == k) = false := Bool.eq_false_iff.2 h
    rw [find?_append_none (fun x hx => by simpa using List.any_eq_false.1 hfalse x hx),
      @List.find?_cons_of_pos _ (fun q => q.1 == k) (k, v) _ (by simp)]

theorem lookupKey_setKey_same (d : List (String × String)) (k v : String) :
    lookupKey (setKey d k v) k = some v := by
  unfold lookupKey
  rw [find?_setKey_same]
  rfl

theorem find?_map_set_other (d : List (String × String)) (k v k' : String) (hk : k ≠ k') :
    List.find? (fun q => q.1 == k') (d.map (fun q => if q.1 == k then (k, v) else q))
      = List.find? (fun q => q.1 == k') d := by
  induction d with
  | nil => rfl
  | cons hd tl ih =>
    by_cases h1 : (hd.1 == k') = true
    · have hne : (hd.1 == k) = false := by
        rw [beq_eq_false_iff_ne]
        intro hkk
        exact hk (hkk ▸ (beq_iff_eq.1 h1))
      rw [List.map_cons, if_neg (by simp [hne]),
        @List.find?_cons_of_pos _ (fun q => q.1 == k') hd _ h1,
        @List.find?_cons_of_pos _ (fun q => q.1 == k') hd _ h1]
    · have h1' : (hd.1 == k') = false := Bool.eq_false_iff.2 h1
      by_cases h2 : (hd.1 == k) = true
      · rw [List.map_cons, if_pos h2,
          @List.find?_cons_of_neg _ (fun q => q.1 == k') (k, v) _ (by simp [hk]),
          @List.find?_cons_of_neg _ (fun q => q.1 == k') hd _ (by simp [h1']), ih]
      · rw [List.map_cons, if_neg h2,
          @List.find?_cons_of_neg _ (fun q => q.1 == k') hd _ (by simp [h1']),
          @List.find?_cons_of_neg _ (fun q => q.1 == k') hd _ (by simp [h1']), ih]

theorem lookupKey_setKey_other (d : List (String × String)) (k v k' : String)
    (hk : k ≠ k') :
    lookupKey (setKey d k v) k' = lookupKey d k' := by
  unfold lookupKey setKey
  split
  · rw [find?_map_set_other d k v k' hk]
  · rw [List.find?_append, List.find?_cons_of_neg _ (by simp [beq_eq_false_iff_ne, hk]),
      List.find?_nil, Option.or_none]

theorem foldl_total_eq_sum (l : List CartView) (a : ℚ) :
    l.foldl (fun acc it => acc + it.price * (it.quantity : ℚ)) a
      = a + (l.map (fun it => it.price * (it.quantity : ℚ))).sum := by
  induction l generalizing a with
  | nil => simp
  | cons hd tl ih => simp [ih, add_assoc]

theorem orderTotal_eq_sum (l : List CartView) :
    orderTotal l = (l.map (fun it => it.price * (it.quantity : ℚ))).sum := by
  unfold orderTotal
  rw [foldl_total_eq_sum, zero_add]

theorem memberStatusCheck_error (api : TgApi) (uid : Int) (c : ChatId) (e : String)
    (hm : api.getChatMember c uid = .error e) :
    memberStatusCheck api uid c = hasSubstr "member list is inaccessible" e := by
  unfold memberStatusCheck
  rw [hm]
  cases h : hasSubstr "member list is inaccessible" e <;> simp [h]

theorem memberStatusCheck_ok (api : TgApi) (uid : Int) (c : ChatId) (st : String)
    (hm : api.getChatMember c uid = .ok st) :
    (memberStatusCheck api uid c = true ↔
      st = "creator" ∨ st = "administrator" ∨ st = "member") := by
  unfold memberStatusCheck
  rw [hm]
  simp [or_assoc]

theorem check_user_subscribed_effective (api : TgApi) (uid : Int) (cid : ChatId) :
    (∀ e, effectiveChat api cid = .error e → check_user_subscribed api uid cid = false) ∧
    (∀ c, effectiveChat api cid = .ok c →
      check_user_subscribed api uid cid = memberStatusCheck api uid c) := by
  cases cid with
  | int i =>
    constructor
    · intro e he
      simp [effectiveChat] at he
    · intro c hc
      simp only [effectiveChat, Except.ok.injEq] at hc
      subst hc
      rfl
  | str s =>
    by_cases hs : startsWithChar '@' s = true
    · cases hg : api.getChat s with
      | error e0 =>
        constructor
        · intro e he
          simp [check_user_subscribed, hs, hg]
        · intro c hc
          simp [effectiveChat, hs, hg] at hc
      | ok cid0 =>
        constructor
        · intro e he
          simp [effectiveChat, hs, hg] at he
        · intro c hc
          simp only [effectiveChat, hs, if_true, hg, Except.ok.injEq] at hc
          subst hc
          simp [check_user_subscribed, hs, hg]
    · have hs' : startsWithChar '@' s = false := Bool.eq_false_iff.2 hs
      constructor
      · intro e he
        simp [effectiveChat, hs'] at he
      · intro c hc
        simp only [effectiveChat, hs', Bool.false_eq_true, if_false, Except.ok.injEq] at hc
        subst hc
        simp [check_user_subscribed, hs']

/-! # Claim theorems -/

/-- C7: `update_order_payment_info` on a non-existent order id returns false
(the logged DoesNotExist path) and changes nothing; it is a total function —
no exception reaches the caller.  For an existing order it returns true and
sets payment_id, payment_url and payment_status on that order. -/
theorem update_order_payment_info_spec
    (db : DB) (oid : Nat) (pid : String) (purl : Option String) (pst : String) :
    (db.orders.find? (fun o => o.id == oid) = none →
      update_order_payment_info db oid pid purl pst = (false, db)) ∧
    ((db.orders.find? (fun o => o.id == oid)).isSome = true →
      (update_order_payment_info db oid pid purl pst).1 = true ∧
      ∀ o ∈ (update_order_payment_info db oid pid purl pst).2.orders,
        o.id = oid →
          o.payment_id = some pid ∧ o.payment_url = purl ∧ o.payment_status = pst) := by
  constructor
  · intro h
    unfold update_order_payment_info
    rw [h]
  · intro h
    obtain ⟨o0, ho0⟩ := Option.isSome_iff_exists.1 h
    unfold update_order_payment_info
    rw [ho0]
    refine ⟨rfl, ?_⟩
    intro o ho hid
    rcases List.mem_map.1 ho with ⟨c, _, rfl⟩
    by_cases hcid : (c.id == oid) = true
    · simp [hcid]
    · rw [if_neg hcid] at hid ⊢
      exact absurd (beq_iff_eq.2 hid) (by simp [hcid])

/-- C7 witness: at a concrete store, order id 7 is absent (returns false,
store untouched) and order id 1 exists (returns true). -/
theorem update_order_payment_info_spec_witness :
    update_order_payment_info dbOrderW 7 "pid1" (some "url1") "pending" = (false, dbOrderW) ∧
    (update_order_payment_info dbOrderW 1 "pid1" (some "url1") "pending").1 = true :=
  ⟨(update_order_payment_info_spec dbOrderW 7 "pid1" (some "url1") "pending").1 (by decide),
   ((update_order_payment_info_spec dbOrderW 1 "pid1" (some "url1") "pending").2 (by decide)).1⟩

/-- C10: the membership check resolves the chat id (a failure there yields
not-subscribed); if the get_chat_member query raises an error whose message
contains "member list is inaccessible" the user is reported subscribed,
any other error reports not subscribed; a successful query reports
subscribed exactly when the status is creator, administrator or member. -/
theorem check_user_subscribed_spec (api : TgApi) (uid : Int) (cid : ChatId) :
    (∀ e, effectiveChat api cid = .error e → check_user_subscribed api uid cid = false) ∧
    (∀ c e, effectiveChat api cid = .ok c → api.getChatMember c uid = .error e →
      check_user_subscribed api uid cid = hasSubstr "member list is inaccessible" e) ∧
    (∀ c st, effectiveChat api cid = .ok c → api.getChatMember c uid = .ok st →
      (check_user_subscribed api uid cid = true ↔
        st = "creator" ∨ st = "administrator" ∨ st = "member")) := by
  obtain ⟨herr, hok⟩ := check_user_subscribed_effective api uid cid
  refine ⟨herr, fun c e hc hm => ?_, fun c st hc hm => ?_⟩
  · rw [hok c hc]
    exact memberStatusCheck_error api uid c e hm
  · rw [hok c hc]
    exact memberStatusCheck_ok api uid c st hm

/-- C10 witness: a get_chat_member failure mentioning an inaccessible member
list reports the user as subscribed. -/
theorem check_user_subscribed_spec_witness :
    check_user_subscribed apiInaccessible 1 (.int 2) = true := by
  have h := (check_user_subscribed_spec apiInaccessible 1 (.int 2)).2.1
    (.int 2) "Bad Request: member list is inaccessible" rfl rfl
  rw [h]
  decide

/-- C8: the Amount field of the Init payload is int(amount * 100); whenever
the order total is an exact multiple of 0.01 (at most two decimal places),
this is exactly 100 times the total — no rounding loss in the conversion to
minor currency units. -/
theorem tinkoff_amount_exact (tk oid d : String) (amount : ℚ)
    (h : ∃ n : ℤ, amount * 100 = (n : ℚ)) :
    ((tinkoff_init_payload tk oid amount d).amount : ℚ) = amount * 100 := by
  obtain ⟨n, hn⟩ := h
  unfold tinkoff_init_payload pyInt
  dsimp only
  rw [hn]
  split <;> simp

/-- C8 witness: a total of 4.35 roubles is transmitted as exactly 435 kopecks. -/
theorem tinkoff_amount_exact_witness :
    ((tinkoff_init_payload "t" "o" ((87 : ℚ)/20) "d").amount : ℚ) = (87 : ℚ)/20 * 100 :=
  tinkoff_amount_exact "t" "o" "d" ((87 : ℚ)/20) ⟨435, by norm_num⟩

/-- C5: the cart add is keyed on the (owner, product) pair: starting from a
store where the pair is absent, one add creates a single line with the given
quantity, and a second add leaves exactly one line carrying q1 + q2 — never
two lines. -/
theorem add_item_to_cart_upsert (db : DB) (uid : Int) (pid : Nat) (q1 q2 : Nat)
    (hids : ∀ c ∈ db.cartItems, c.id < db.nextCartItemId)
    (habsent : db.cartItems.filter (fun c => c.user_id == uid && c.product_id == pid) = []) :
    ((add_item_to_cart db uid pid q1).2.cartItems.filter
        (fun c => c.user_id == uid && c.product_id == pid)
      = [newCartRow db uid pid q1]) ∧
    ((add_item_to_cart (add_item_to_cart db uid pid q1).2 uid pid q2).2.cartItems.filter
        (fun c => c.user_id == uid && c.product_id == pid)
      = [newCartRow db uid pid (q1 + q2)]) := by
  have hpred : ∀ x ∈ db.cartItems, (x.user_id == uid && x.product_id == pid) = false :=
    fun x hx => Bool.eq_false_iff.2 (List.filter_eq_nil_iff.1 habsent x hx)
  have hnone : db.cartItems.find? (fun c => c.user_id == uid && c.product_id == pid) = none :=
    List.find?_eq_none.2 (fun x hx => by rw [hpred x hx]; simp)
  have hadd1 : add_item_to_cart db uid pid q1 =
      (true, { db with
        cartItems := db.cartItems ++ [newCartRow db uid pid q1],
        nextCartItemId := db.nextCartItemId + 1 }) := by
    unfold add_item_to_cart newCartRow
    rw [hnone]
  have hfilter1 : (db.cartItems ++ [newCartRow db uid pid q1]).filter
        (fun c => c.user_id == uid && c.product_id == pid)
      = [newCartRow db uid pid q1] := by
    rw [List.filter_append, habsent, List.nil_append]
    simp [newCartRow]
  constructor
  · rw [hadd1]
    exact hfilter1
  · rw [hadd1]
    dsimp only
    have hfind : (db.cartItems ++ [newCartRow db uid pid q1]).find?
          (fun c => c.user_id == uid && c.product_id == pid)
        = some (newCartRow db uid pid q1) := by
      rw [find?_append_none hpred]
      exact @List.find?_cons_of_pos _ (fun c => c.user_id == uid && c.product_id == pid)
        (newCartRow db uid pid q1) [] (by simp [newCartRow])
    unfold add_item_to_cart
    rw [hfind]
    dsimp only
    rw [List.map_append]
    have hmapold : db.cartItems.map (fun c =>
        if c.id == (newCartRow db uid pid q1).id
        then { c with quantity := c.quantity + q2 } else c) = db.cartItems := by
      have hcongr := List.map_congr_left (l := db.cartItems)
        (f := fun c : CartItemRow =>
          if c.id == (newCartRow db uid pid q1).id
          then { c with quantity := c.quantity + q2 } else c)
        (g := id)
        (fun c hc => by
          dsimp only
          rw [if_neg]
          · rfl
          · simp [newCartRow, Nat.ne_of_lt (hids c hc)])
      rw [hcongr, List.map_id]
    rw [hmapold, List.filter_append, habsent, List.nil_append]
    simp [newCartRow]

/-- C5 witness: user 1 adds product 3 (absent from the fixture cart) with
quantity 2 then quantity 5: one line with quantity 7 results. -/
theorem add_item_to_cart_upsert_witness :
    ((add_item_to_cart dbW 1 3 2).2.cartItems.filter
        (fun c => c.user_id == 1 && c.product_id == 3)
      = [newCartRow dbW 1 3 2]) ∧
    ((add_item_to_cart (add_item_to_cart dbW 1 3 2).2 1 3 5).2.cartItems.filter
        (fun c => c.user_id == 1 && c.product_id == 3)
      = [newCartRow dbW 1 3 (2 + 5)]) :=
  add_item_to_cart_upsert dbW 1 3 2 5 (by decide) (by decide)

theorem process_phone_rejected (fsm : FSMContext) (text : String)
    (h : matchesPhonePattern (stripNonDigits (pyStrip text)) = false) :
    process_phone fsm text = (fsm, false) := by
  unfold process_phone
  simp [h]

theorem process_phone_accepted (fsm : FSMContext) (text : String)
    (h : matchesPhonePattern (stripNonDigits (pyStrip text)) = true) :
    process_phone fsm text =
      ({ stage := some .waiting_for_address,
         data := setKey fsm.data "phone"
           (normalizePhone (stripNonDigits (pyStrip text))) }, true) := by
  unfold process_phone
  simp [h]

/-- C3: every phone input is reduced to its digits; an input whose digits do
not match `(7|8)?` + ten digits leaves the handler's state untouched
(re-prompt), a matching one stores the normalized number and advances to the
address stage; the four sample inputs all store +79991234567, and "123" is
rejected without advancing. -/
theorem process_phone_spec :
    (∀ (fsm : FSMContext) (text : String),
      matchesPhonePattern (stripNonDigits (pyStrip text)) = false →
        process_phone fsm text = (fsm, false)) ∧
    (∀ (fsm : FSMContext) (text : String),
      matchesPhonePattern (stripNonDigits (pyStrip text)) = true →
        process_phone fsm text =
          ({ stage := some .waiting_for_address,
             data := setKey fsm.data "phone"
               (normalizePhone (stripNonDigits (pyStrip text))) }, true)) ∧
    (∀ fsm : FSMContext,
      ∀ text ∈ ["89991234567", "+79991234567", "9991234567", "8(999)123-45-67"],
        (process_phone fsm text).2 = true ∧
        (process_phone fsm text).1.stage = some .waiting_for_address ∧
        lookupKey (process_phone fsm text).1.data "phone" = some "+79991234567") ∧
    (∀ fsm : FSMContext, process_phone fsm "123" = (fsm, false)) := by
  refine ⟨process_phone_rejected, process_phone_accepted, ?_, ?_⟩
  · intro fsm text htext
    simp only [List.mem_cons, List.not_mem_nil, or_false] at htext
    rcases htext with rfl | rfl | rfl | rfl <;>
      rw [process_phone_accepted _ _ (by decide)] <;>
      exact ⟨rfl, rfl, by rw [lookupKey_setKey_same]; decide⟩
  · intro fsm
    exact process_phone_rejected fsm "123" (by decide)

/-- C3 witness: the bracketed sample input is accepted and stored normalized;
"123" is rejected at a concrete state. -/
theorem process_phone_spec_witness :
    ((process_phone fsmPhoneW "8(999)123-45-67").2 = true ∧
      (process_phone fsmPhoneW "8(999)123-45-67").1.stage = some .waiting_for_address ∧
      lookupKey (process_phone fsmPhoneW "8(999)123-45-67").1.data "phone"
        = some "+79991234567") ∧
    process_phone fsmPhoneW "123" = (fsmPhoneW, false) :=
  ⟨(process_phone_spec.2.2.1 fsmPhoneW "8(999)123-45-67" (by simp)),
   process_phone_spec.2.2.2 fsmPhoneW⟩

theorem stripNonDigits_all_digits (s : String) :
    (stripNonDigits s).data.all Char.isDigit = true := by
  unfold stripNonDigits
  rw [List.all_eq_true]
  intro x hx
  exact (List.mem_filter.1 hx).2

theorem matchesPhonePattern_len10 (c : String) (hlen : c.data.length = 10)
    (hdig : c.data.all Char.isDigit = true) : matchesPhonePattern c = true := by
  unfold matchesPhonePattern
  cases hcd : c.data with
  | nil =>
    rw [hcd] at hlen
    simp at hlen
  | cons c0 rest =>
    rw [hcd] at hlen hdig
    rw [Bool.or_eq_true]
    right
    rw [Bool.and_eq_true]
    exact ⟨beq_iff_eq.2 hlen, hdig⟩

/-- C9: a stripped input of exactly ten digits beginning with '7' or '8' is
accepted (the optional country digit matches empty), but normalization then
treats the first digit as a country code: the stored phone is '+' plus the
ten digits (leading '7') or '+7' plus the remaining nine digits (leading
'8') — 11 characters, not the 12-character '+7'+10-digit shape every other
accepted input produces. -/
theorem phone_country_digit_ambiguity (fsm : FSMContext) (text : String)
    (hlen : (stripNonDigits (pyStrip text)).data.length = 10) :
    ((stripNonDigits (pyStrip text)).data.head? = some '7' →
      (process_phone fsm text).2 = true ∧
      lookupKey (process_phone fsm text).1.data "phone"
        = some ("+" ++ stripNonDigits (pyStrip text)) ∧
      ("+" ++ stripNonDigits (pyStrip text)).length = 11) ∧
    ((stripNonDigits (pyStrip text)).data.head? = some '8' →
      (process_phone fsm text).2 = true ∧
      lookupKey (process_phone fsm text).1.data "phone"
        = some ("+7" ++ strTail (stripNonDigits (pyStrip text))) ∧
      ("+7" ++ strTail (stripNonDigits (pyStrip text))).length = 11) := by
  have hacc := process_phone_accepted fsm text
    (matchesPhonePattern_len10 _ hlen (stripNonDigits_all_digits _))
  have hlen' : (stripNonDigits (pyStrip text)).length = 10 := hlen
  constructor
  · intro h7
    have h8 : startsWithChar '8' (stripNonDigits (pyStrip text)) = false := by
      unfold startsWithChar
      rw [h7]
      decide
    have h7' : startsWithChar '7' (stripNonDigits (pyStrip text)) = true := by
      unfold startsWithChar
      rw [h7]
      decide
    have hnorm : normalizePhone (stripNonDigits (pyStrip text))
        = "+" ++ stripNonDigits (pyStrip text) := by
      unfold normalizePhone
      rw [h8, h7']
      simp
    rw [hacc]
    refine ⟨rfl, ?_, ?_⟩
    · rw [lookupKey_setKey_same, hnorm]
    · rw [String.length_append, hlen']
      decide
  · intro h8
    have h8' : startsWithChar '8' (stripNonDigits (pyStrip text)) = true := by
      unfold startsWithChar
      rw [h8]
      decide
    have hnorm : normalizePhone (stripNonDigits (pyStrip text))
        = "+7" ++ strTail (stripNonDigits (pyStrip text)) := by
      unfold normalizePhone
      rw [h8']
      simp
    rw [hacc]
    refine ⟨rfl, ?_, ?_⟩
    · rw [lookupKey_setKey_same, hnorm]
    · rw [String.length_append]
      have htl : (strTail (stripNonDigits (pyStrip text))).length = 9 := by
        unfold strTail
        show (stripNonDigits (pyStrip text)).data.tail.length = 9
        rw [List.length_tail, hlen]
      rw [htl]
      decide

/-- C9 witness: the ten-digit input "7999123456" is accepted and stored as
the 11-character "+7999123456". -/
theorem phone_country_digit_ambiguity_witness :
    (process_phone fsmPhoneW "7999123456").2 = true ∧
    lookupKey (process_phone fsmPhoneW "7999123456").1.data "phone"
      = some ("+" ++ stripNonDigits (pyStrip "7999123456")) ∧
    ("+" ++ stripNonDigits (pyStrip "7999123456")).length = 11 :=
  (phone_country_digit_ambiguity fsmPhoneW "7999123456" (by decide)).1 (by decide)

theorem createOrderItems_ok (oid : Nat) (items : List ItemDict) (db : DB)
    (h : ∀ it ∈ items,
      (db.products.find? (fun pr => pr.id == it.product_id)).isSome = true) :
    createOrderItems db oid items =
      (.ok (), { db with orderItems := db.orderItems ++ items.map (orderItemOf oid) }) := by
  induction items generalizing db with
  | nil => simp [createOrderItems]
  | cons it rest ih =>
    obtain ⟨p, hp⟩ := Option.isSome_iff_exists.1 (h it (List.mem_cons_self it rest))
    have hpid : p.id = it.product_id := by simpa using List.find?_some hp
    unfold createOrderItems productGet
    rw [hp]
    dsimp only
    rw [ih { db with
        orderItems := db.orderItems ++
          [{ order_id := oid, product_id := p.id,
             quantity := it.quantity, price := it.price }] }
      (fun it' h' => h it' (List.mem_cons_of_mem _ h'))]
    simp [orderItemOf, hpid, List.append_assoc]

theorem createOrderItems_missing (oid : Nat) (items : List ItemDict) (db : DB)
    (h : ∃ it ∈ items, db.products.find? (fun pr => pr.id == it.product_id) = none) :
    ∃ e, (createOrderItems db oid items).1 = .error e := by
  induction items generalizing db with
  | nil =>
    rcases h with ⟨it, hmem, _⟩
    cases hmem
  | cons it rest ih =>
    cases hfind : db.products.find? (fun pr => pr.id == it.product_id) with
    | none =>
      refine ⟨"Product.DoesNotExist", ?_⟩
      simp [createOrderItems, productGet, hfind]
    | some p =>
      rcases h with ⟨it', hmem, hnone⟩
      rcases List.mem_cons.1 hmem with rfl | hmem'
      · rw [hfind] at hnone
        cases hnone
      · have hrec := ih ({ db with orderItems := db.orderItems ++
            [{ order_id := oid, product_id := p.id,
               quantity := it.quantity, price := it.price }] }) ⟨it', hmem', hnone⟩
        simp only [createOrderItems, productGet, hfind]
        exact hrec

/-- C1: create_order is atomic.  If any line item's product id is missing at
call time, the whole call raises and the store is exactly as before — no
Order row and no OrderItem rows persist.  If every product exists, the
order row and all line-item rows are written and the fresh order id is
returned. -/
theorem create_order_atomic (db : DB) (uid : Int) (items : List ItemDict)
    (n p a : String) (t : ℚ) :
    ((∃ it ∈ items, db.products.find? (fun pr => pr.id == it.product_id) = none) →
      (∃ e, (create_order db uid items n p a t).1 = .error e) ∧
      (create_order db uid items n p a t).2 = db) ∧
    ((∀ it ∈ items,
        (db.products.find? (fun pr => pr.id == it.product_id)).isSome = true) →
      create_order db uid items n p a t =
        (.ok db.nextOrderId,
         { db with
           orders := db.orders ++ [newOrderRow db.nextOrderId uid n p a t],
           orderItems := db.orderItems ++ items.map (orderItemOf db.nextOrderId),
           nextOrderId := db.nextOrderId + 1 })) := by
  constructor
  · intro h
    obtain ⟨e, he⟩ := createOrderItems_missing db.nextOrderId items
      { db with
        orders := db.orders ++
          [{ id := db.nextOrderId, user_id := uid, name := n, phone := p,
             address := a, total_amount := t, payment_id := none,
             payment_url := none, payment_status := "pending" }],
        nextOrderId := db.nextOrderId + 1 } h
    unfold create_order
    dsimp only
    cases hco : createOrderItems
        { db with
          orders := db.orders ++
            [{ id := db.nextOrderId, user_id := uid, name := n, phone := p,
               address := a, total_amount := t, payment_id := none,
               payment_url := none, payment_status := "pending" }],
          nextOrderId := db.nextOrderId + 1 } db.nextOrderId items with
    | mk st db2 =>
      rw [hco] at he
      cases st with
      | ok u => simp at he
      | error e2 => exact ⟨⟨e2, rfl⟩, rfl⟩
  · intro h
    unfold create_order
    dsimp only
    rw [createOrderItems_ok db.nextOrderId items
      { db with
        orders := db.orders ++
          [{ id := db.nextOrderId, user_id := uid, name := n, phone := p,
             address := a, total_amount := t, payment_id := none,
             payment_url := none, payment_status := "pending" }],
        nextOrderId := db.nextOrderId + 1 } h]
    rfl

/-- C1 witness: with only product 1 in the catalog, an order referencing
product 2 raises and leaves the store untouched, while an order for
product 1 commits the order row and its line item. -/
theorem create_order_atomic_witness :
    ((∃ e, (create_order dbW 1 [⟨2, 1, 5⟩] "n" "p" "a" 5).1 = .error e) ∧
      (create_order dbW 1 [⟨2, 1, 5⟩] "n" "p" "a" 5).2 = dbW) ∧
    (create_order dbW 1 [⟨1, 2, 100⟩] "n" "p" "a" 200 =
      (.ok dbW.nextOrderId,
       { dbW with
         orders := dbW.orders ++ [newOrderRow dbW.nextOrderId 1 "n" "p" "a" 200],
         orderItems := dbW.orderItems ++ [⟨1, 2, 100⟩].map (orderItemOf dbW.nextOrderId),
         nextOrderId := dbW.nextOrderId + 1 })) :=
  ⟨(create_order_atomic dbW 1 [⟨2, 1, 5⟩] "n" "p" "a" 5).1 (by decide),
   (create_order_atomic dbW 1 [⟨1, 2, 100⟩] "n" "p" "a" 200).2 (by decide)⟩

theorem get_cart_items_products (db : DB) (uid : Int) :
    ∀ cv ∈ get_cart_items db uid,
      (db.products.find? (fun pr => pr.id == cv.product_id)).isSome = true := by
  intro cv hcv
  unfold get_cart_items at hcv
  rcases List.mem_filterMap.1 hcv with ⟨c, hc, hsome⟩
  cases hfind : db.products.find? (fun pr => pr.id == c.product_id) with
  | none =>
    rw [hfind] at hsome
    cases hsome
  | some r =>
    rw [hfind] at hsome
    dsimp only at hsome
    injection hsome with h
    have hid : cv.product_id = r.id := by rw [← h]
    apply List.find?_isSome.2
    exact ⟨r, List.mem_of_find?_eq_some hfind, by simp [hid]⟩

theorem cart_items_all_exist (db : DB) (uid : Int) :
    ∀ it ∈ (get_cart_items db uid).map
        (fun it => ({ product_id := it.product_id, quantity := it.quantity,
                      price := it.price } : ItemDict)),
      (db.products.find? (fun pr => pr.id == it.product_id)).isSome = true := by
  intro it hit
  rcases List.mem_map.1 hit with ⟨cv, hcv, rfl⟩
  exact get_cart_items_products db uid cv hcv

theorem process_address_finalizes (env : Env) (db : DB) (uid : Int) (text : String)
    (fsm : FSMContext) (n p : String)
    (hname : lookupKey (setKey fsm.data "address" text) "name" = some n)
    (hphone : lookupKey (setKey fsm.data "address" text) "phone" = some p)
    (hcart : get_cart_items db uid ≠ [])
    (hdb : env.dbError = false) :
    process_address env db uid text fsm = finalizeResult env db uid n p text := by
  have hemp : (get_cart_items db uid).isEmpty = false := by
    rw [List.isEmpty_eq_false]
    exact hcart
  have hco := (create_order_atomic db uid
      ((get_cart_items db uid).map (fun it =>
        ({ product_id := it.product_id, quantity := it.quantity,
           price := it.price } : ItemDict)))
      n p text (orderTotal (get_cart_items db uid))).2
    (cart_items_all_exist db uid)
  have hmap : (((get_cart_items db uid).map (fun it =>
        ({ product_id := it.product_id, quantity := it.quantity,
           price := it.price } : ItemDict))).map (orderItemOf db.nextOrderId))
      = (get_cart_items db uid).map (snapshotItemRow db.nextOrderId) := by
    rw [List.map_map]
    rfl
  unfold process_address
  dsimp only
  rw [hemp]
  simp only [Bool.false_eq_true, if_false]
  rw [hname, hphone, lookupKey_setKey_same]
  dsimp only
  rw [hdb]
  simp only [Bool.false_eq_true, if_false]
  rw [hco]
  unfold finalizeResult
  dsimp only
  rw [hmap]
  rfl

/-- C6: every exit path of the finalization handler — empty-cart abort,
success, degraded gateway outcome, and every caught exception path
(missing scratch key, storage failure, missing product) — ends with
state.clear(): no stage and empty scratch remain. -/
theorem process_address_clears_state (env : Env) (db : DB) (uid : Int)
    (text : String) (fsm : FSMContext) :
    (process_address env db uid text fsm).fsm = FSMContext.clear := by
  unfold process_address
  dsimp only
  repeat' split
  all_goals rfl

/-- C2 counterexample: with a concrete store and a checkout whose payment
HTTP call raises a network error, the outcome is the degraded
manual-follow-up outcome — the very same outcome as a structured
success=false gateway response — and not the distinct aborted/apology
outcome the claim asserts. -/
theorem payment_network_failure_counterexample :
    (process_address envNetFail dbW 1 "Moscow" fsmW).outcome = .degraded 1 ∧
    (process_address envNetFail dbW 1 "Moscow" fsmW).outcome
      = (process_address envBizFail dbW 1 "Moscow" fsmW).outcome ∧
    Outcome.degraded 1 ≠ Outcome.aborted := by
  exact ⟨by decide, by decide, by decide⟩

/-- C2 (amended): a network/protocol failure of the payment initiation call
never raises — create_payment converts it into a structured success=false
response — so the flow reaches exactly the same DegradedSuccess outcome
(order committed, manual-follow-up branch) as a gateway-reported business
failure; the two cases are indistinguishable, and the order stays
committed. -/
theorem payment_network_failure_degrades (env : Env) (db : DB) (uid : Int)
    (text : String) (fsm : FSMContext) (n p e : String)
    (hname : lookupKey (setKey fsm.data "address" text) "name" = some n)
    (hphone : lookupKey (setKey fsm.data "address" text) "phone" = some p)
    (hcart : get_cart_items db uid ≠ [])
    (hdb : env.dbError = false)
    (hnet : env.net = fun _ => .error e) :
    (process_address env db uid text fsm).outcome = .degraded db.nextOrderId ∧
    (process_address env db uid text fsm).db
      = dbAfterOrder db uid n p text (get_cart_items db uid) ∧
    process_address env db uid text fsm =
      process_address { env with net := fun _ => .ok ⟨false, none, some e⟩ }
        db uid text fsm := by
  have h1 := process_address_finalizes env db uid text fsm n p hname hphone hcart hdb
  have h2 := process_address_finalizes
    { env with net := fun _ => .ok ⟨false, none, some e⟩ }
    db uid text fsm n p hname hphone hcart hdb
  refine ⟨?_, ?_, ?_⟩
  · rw [h1]
    unfold finalizeResult
    dsimp only
    rw [hnet]
    rfl
  · rw [h1]
    unfold finalizeResult
    dsimp only
    rw [hnet]
    rfl
  · rw [h1, h2]
    unfold finalizeResult
    dsimp only
    rw [hnet]
    rfl

/-- C2 witness for the amended claim at the concrete fixture. -/
theorem payment_network_failure_degrades_witness :
    (process_address envNetFail dbW 1 "Moscow" fsmW).outcome = .degraded dbW.nextOrderId ∧
    (process_address envNetFail dbW 1 "Moscow" fsmW).db
      = dbAfterOrder dbW 1 "Ivan" "+79991234567" "Moscow" (get_cart_items dbW 1) ∧
    process_address envNetFail dbW 1 "Moscow" fsmW =
      process_address
        { envNetFail with net := fun _ => .ok ⟨false, none, some "Cannot connect to host"⟩ }
        dbW 1 "Moscow" fsmW :=
  payment_network_failure_degrades envNetFail dbW 1 "Moscow" fsmW
    "Ivan" "+79991234567" "Cannot connect to host"
    (by decide) (by decide) (by decide) rfl rfl

theorem update_payment_info_items (db : DB) (oid : Nat) (pid : String)
    (purl : Option String) (pst : String) :
    (update_order_payment_info db oid pid purl pst).2.orderItems = db.orderItems := by
  unfold update_order_payment_info
  split <;> rfl

theorem update_payment_info_find (l : List OrderRow) (row : OrderRow) (db1 : DB)
    (oid : Nat) (pid : String) (purl : Option String) (pst : String)
    (horders : db1.orders = l ++ [row])
    (hl : ∀ o ∈ l, o.id ≠ oid) (hrow : row.id = oid) :
    (update_order_payment_info db1 oid pid purl pst).2.orders.find?
        (fun o => o.id == oid)
      = some { row with
          payment_id := some pid,
          payment_url := purl,
          payment_status := pst } := by
  have hlpred : ∀ o ∈ l, ((o.id == oid) = false) :=
    fun o ho => beq_eq_false_iff_ne.2 (hl o ho)
  have hfind : db1.orders.find? (fun o => o.id == oid) = some row := by
    rw [horders, find?_append_none hlpred]
    exact @List.find?_cons_of_pos _ (fun o => o.id == oid) row [] (by simp [hrow])
  unfold update_order_payment_info
  rw [hfind]
  dsimp only
  rw [horders, List.map_append]
  have hmapl : l.map (fun o => if o.id == oid then
      { o with
        payment_id := some pid,
        payment_url := purl,
        payment_status := pst } else o) = l := by
    have hcongr := List.map_congr_left (l := l)
      (f := fun o : OrderRow => if o.id == oid then
        { o with
          payment_id := some pid,
          payment_url := purl,
          payment_status := pst } else o)
      (g := id)
      (fun o ho => by
        dsimp only
        rw [if_neg]
        · rfl
        · simp [hlpred o ho])
    rw [hcongr, List.map_id]
  rw [hmapl, find?_append_none hlpred]
  simp [hrow]

theorem dbAfterOrder_orders (db : DB) (uid : Int) (n p a : String)
    (cart : List CartView)
    (horders : ∀ o ∈ db.orders, o.id ≠ db.nextOrderId) :
    (dbAfterOrder db uid n p a cart).orders.find? (fun o => o.id == db.nextOrderId)
      = some (newOrderRow db.nextOrderId uid n p a (orderTotal cart)) := by
  unfold dbAfterOrder
  dsimp only
  rw [find?_append_none (fun o ho => beq_eq_false_iff_ne.2 (horders o ho))]
  exact @List.find?_cons_of_pos _ (fun o => o.id == db.nextOrderId)
    (newOrderRow db.nextOrderId uid n p a (orderTotal cart)) []
    (by simp [newOrderRow])

theorem dbAfterOrder_lineItems (db : DB) (uid : Int) (n p a : String)
    (cart : List CartView)
    (hitems : ∀ it ∈ db.orderItems, it.order_id ≠ db.nextOrderId) :
    orderLineItems (dbAfterOrder db uid n p a cart) db.nextOrderId
      = cart.map (snapshotItemRow db.nextOrderId) := by
  unfold orderLineItems dbAfterOrder
  dsimp only
  rw [List.filter_append]
  have h1 : db.orderItems.filter (fun it => it.order_id == db.nextOrderId) = [] :=
    List.filter_eq_nil_iff.2
      (fun it hit h => (hitems it hit) (beq_iff_eq.1 h))
  rw [h1, List.nil_append]
  rw [List.filter_eq_self.2]
  intro it hit
  rcases List.mem_map.1 hit with ⟨cv, _, rfl⟩
  simp [snapshotItemRow]

theorem itemsTotal_snapshot (oid : Nat) (cart : List CartView) :
    itemsTotal (cart.map (snapshotItemRow oid)) = orderTotal cart := by
  unfold itemsTotal
  rw [List.map_map, orderTotal_eq_sum]
  rfl

/-- C4: whenever finalization reaches order creation (non-empty snapshot,
scratch holds name and phone, storage up), the persisted order's
total_amount equals the sum of unit_price × quantity over exactly the line
items persisted for it, and those line items are the snapshot rows of the
cart fetched at finalization time — in both the success and the degraded
gateway outcome. -/
theorem order_total_consistency (env : Env) (db : DB) (uid : Int) (text : String)
    (fsm : FSMContext) (n p : String)
    (hname : lookupKey (setKey fsm.data "address" text) "name" = some n)
    (hphone : lookupKey (setKey fsm.data "address" text) "phone" = some p)
    (hcart : get_cart_items db uid ≠ [])
    (hdb : env.dbError = false)
    (horders : ∀ o ∈ db.orders, o.id ≠ db.nextOrderId)
    (hitems : ∀ it ∈ db.orderItems, it.order_id ≠ db.nextOrderId) :
    ∃ row, (process_address env db uid text fsm).db.orders.find?
        (fun o => o.id == db.nextOrderId) = some row ∧
      orderLineItems (process_address env db uid text fsm).db db.nextOrderId
        = (get_cart_items db uid).map (snapshotItemRow db.nextOrderId) ∧
      row.total_amount
        = itemsTotal (orderLineItems (process_address env db uid text fsm).db
            db.nextOrderId) ∧
      row.total_amount = orderTotal (get_cart_items db uid) := by
  rw [process_address_finalizes env db uid text fsm n p hname hphone hcart hdb]
  unfold finalizeResult
  dsimp only
  split
  · have hline : orderLineItems (update_order_payment_info
        (dbAfterOrder db uid n p text (get_cart_items db uid)) db.nextOrderId
        (paymentIdOf db.nextOrderId env.nonce)
        (TinkoffPayment.create_payment TINKOFF_TERMINAL_KEY
          (paymentIdOf db.nextOrderId env.nonce)
          (orderTotal (get_cart_items db uid)) (descriptionOf db.nextOrderId)
          env.net).paymentURL "pending").2 db.nextOrderId
        = (get_cart_items db uid).map (snapshotItemRow db.nextOrderId) := by
      unfold orderLineItems
      rw [update_payment_info_items]
      have hsnap := dbAfterOrder_lineItems db uid n p text (get_cart_items db uid) hitems
      unfold orderLineItems at hsnap
      exact hsnap
    refine ⟨_, update_payment_info_find db.orders
        (newOrderRow db.nextOrderId uid n p text (orderTotal (get_cart_items db uid)))
        (dbAfterOrder db uid n p text (get_cart_items db uid)) db.nextOrderId
        (paymentIdOf db.nextOrderId env.nonce)
        (TinkoffPayment.create_payment TINKOFF_TERMINAL_KEY
          (paymentIdOf db.nextOrderId env.nonce)
          (orderTotal (get_cart_items db uid)) (descriptionOf db.nextOrderId)
          env.net).paymentURL "pending" rfl horders rfl,
      hline, ?_, rfl⟩
    rw [hline, itemsTotal_snapshot]
    rfl
  · refine ⟨newOrderRow db.nextOrderId uid n p text
        (orderTotal (get_cart_items db uid)),
      dbAfterOrder_orders db uid n p text (get_cart_items db uid) horders,
      dbAfterOrder_lineItems db uid n p text (get_cart_items db uid) hitems, ?_, rfl⟩
    rw [dbAfterOrder_lineItems db uid n p text (get_cart_items db uid) hitems,
      itemsTotal_snapshot]
    rfl

/-- C4 witness at the concrete fixture with a successful gateway. -/
theorem order_total_consistency_witness :
    ∃ row, (process_address envOkPay dbW 1 "Moscow" fsmW).db.orders.find?
        (fun o => o.id == dbW.nextOrderId) = some row ∧
      orderLineItems (process_address envOkPay dbW 1 "Moscow" fsmW).db dbW.nextOrderId
        = (get_cart_items dbW 1).map (snapshotItemRow dbW.nextOrderId) ∧
      row.total_amount
        = itemsTotal (orderLineItems (process_address envOkPay dbW 1 "Moscow" fsmW).db
            dbW.nextOrderId) ∧
      row.total_amount = orderTotal (get_cart_items dbW 1) :=
  order_total_consistency envOkPay dbW 1 "Moscow" fsmW "Ivan" "+79991234567"
    (by decide) (by decide) (by decide) rfl (by decide) (by decide)

end MarketBot
